import Mathlib

/-!
Shallow embedding of the Backster conversational client
(src/frontend/src/App.tsx and src/frontend/src/components/SourceModal.tsx).

The React component state is modelled as an explicit record `AppState`;
each React state setter becomes a field update, and each event handler
becomes a pure transition function on `AppState`.  The asynchronous
network exchange inside `sendMessage` is modelled by passing the outcome
of the `fetch` call (`NetResult`) as an explicit argument, so one call of
the Lean `sendMessage` covers the whole dispatch from precondition check
to the `finally` block.  UI-only artifacts (refs, scrolling, textarea
height, markdown rendering) are not modelled.
-/

namespace Backster

/-- A chat message as stored in the `messages` React state:
`{fromBot: boolean, text: string}` (App.tsx lines 11-17). -/
structure Message where
  fromBot : Bool
  text : String
deriving DecidableEq, Repr

/-- Helper: a bot message literal `{fromBot: true, text: t}`. -/
def botMessage (t : String) : Message := { fromBot := true, text := t }

/-- Helper: a user message literal `{fromBot: false, text: t}`. -/
def userMessage (t : String) : Message := { fromBot := false, text := t }

/-- The seed greeting the `messages` state is initialised with
(App.tsx lines 11-17). -/
def seedMessage : Message :=
  botMessage "Hej! Jag heter Backster och är din assistent här på Backstage. Vilken anställningsform har du?"

/-- The fixed bot acknowledgement appended by
`handleEmploymentTypeSelection` (App.tsx line 91). -/
def ackMessage : Message :=
  botMessage "Tack, vad kan jag hjälpa dig med idag?"

/-- The `parkMap` record (App.tsx lines 30-35): a JavaScript record lookup
`parkMap[code]` yields `undefined` (here `none`) for a key outside the
four listed short codes. -/
def parkMap (code : String) : Option String :=
  if code = "glt" then some "Gröna Lund"
  else if code = "kdp" then some "Kolmården"
  else if code = "fvp" then some "Furuvik"
  else if code = "ssl" then some "Skara Sommarland"
  else none

/-- The `parkStyles` record (App.tsx lines 37-42). -/
def parkStyles (code : String) : Option String :=
  if code = "glt" then some "bg-glt-primary-600 text-white"
  else if code = "kdp" then some "bg-kdp-primary-600 text-white"
  else if code = "fvp" then some "bg-fvp-primary-600 text-white"
  else if code = "ssl" then some "bg-ssl-primary-600 text-white"
  else none

/-- The parkParam line (App.tsx line 29) reads the park query parameter
and applies the JavaScript or-default to `glt`: `queryParams.get`
returns `null` when the parameter is absent, and `||` also replaces the
falsy empty string by the default `glt`.  A non-empty unrecognized code
passes through unchanged. -/
def resolveParkParam (raw : Option String) : String :=
  match raw with
  | none => "glt"
  | some s => if s = "" then "glt" else s

/-- `const park = parkMap[parkParam]` (App.tsx line 36). -/
def parkDisplay (raw : Option String) : Option String :=
  parkMap (resolveParkParam raw)

/-- `const parkStyle = parkStyles[parkParam]` (App.tsx line 43). -/
def parkStyleOf (raw : Option String) : Option String :=
  parkStyles (resolveParkParam raw)

/-- The observable content of the HTTP response to the startup request:
its status (`response.ok`), the value of the `X-Token` response header if
present, and — for comparison with the spec — the `token` field of the
JSON body if present. -/
structure TokenResponse where
  ok : Bool
  xTokenHeader : Option String
  bodyTokenField : Option String
deriving DecidableEq, Repr

/-- The URL of the single startup request:
`fetch(`/?key=${key}`)` (App.tsx line 61). -/
def tokenUrl (key : String) : String := "/?key=" ++ key

/-- The token extracted by `fetchToken` (App.tsx lines 59-75): on a
non-ok status it returns without setting the token; otherwise it reads
the `X-Token` response header and keeps the token only when that header
is present and truthy (a present empty string is falsy in JavaScript).
`none` means the `token` state stays at its initial `""` (Session absent). -/
def tokenFromResponse (r : TokenResponse) : Option String :=
  if r.ok then
    match r.xTokenHeader with
    | some t => if t = "" then none else some t
    | none => none
  else none

/-- A second definition following the spec words, for comparison only:
the spec describes `GET /token?key=<key>` returning `{ token: string }`,
with the token taken from the `token` field of the JSON body. -/
def specTokenUrl (key : String) : String := "/token?key=" ++ key

/-- A second definition following the spec words, for comparison only:
the token the spec says is extracted — the `token` field of the JSON
body of a successful response. -/
def specTokenFromResponse (r : TokenResponse) : Option String :=
  if r.ok then r.bodyTokenField else none

/-- The parsed JSON body of a chat response, restricted to the fields
the client reads: `data.text`, `data.sources`, `data.contents`
(App.tsx lines 117-120). -/
structure ChatData where
  text : String
  sources : List String
  contents : List String
deriving DecidableEq, Repr

/-- Outcome of the `fetch` + `response.json()` pair inside `sendMessage`:
`response ok body` is an HTTP response that arrived with status flag
`ok` and whose body parsed to `some` data or failed to parse (`none`,
making `response.json()` throw); `netError` is a rejected `fetch`. -/
inductive NetResult where
  | response (ok : Bool) (body : Option ChatData)
  | netError
deriving DecidableEq, Repr

/-- The React state of the `App` component that the conversation
controller reads and writes (App.tsx lines 10-24). -/
structure AppState where
  inputValue : String
  messages : List Message
  employmentType : Option String
  token : String
  isTyping : Bool
  contents : List String
  sources : List String
deriving DecidableEq, Repr

/-- The initial state of the `App` component (App.tsx lines 10-24). -/
def initState : AppState :=
  { inputValue := ""
  , messages := [seedMessage]
  , employmentType := none
  , token := ""
  , isTyping := false
  , contents := []
  , sources := [] }

/-- `handleEmploymentTypeSelection` (App.tsx lines 86-93): records the
employment type and appends the user label and the fixed acknowledgement
in one `setMessages` update.  The handler body itself has no guard. -/
def handleEmploymentTypeSelection (label : String) (st : AppState) : AppState :=
  { st with employmentType := some label
          , messages := st.messages ++ [userMessage label, ackMessage] }

/-- The classification UI event: the selection buttons are rendered only
while `employmentType === null` (App.tsx line 174), so a click reaches
`handleEmploymentTypeSelection` exactly when the gate is still awaiting
classification; once `employmentType` is set the buttons do not exist
and the event is a no-op. -/
def classifyClick (label : String) (st : AppState) : AppState :=
  if st.employmentType = none then handleEmploymentTypeSelection label st else st

/-- The JavaScript `String.prototype.trim` used on line 96, modelled
directly over the character list (drop whitespace from both ends) so
that it evaluates inside the kernel; for the ASCII whitespace the claims
use it agrees with the JavaScript function. -/
def jsTrim (s : String) : String :=
  String.mk (((s.data.dropWhile Char.isWhitespace).reverse.dropWhile
    Char.isWhitespace).reverse)

/-- The guard on `sendMessage` (App.tsx line 96):
`if (!inputValue.trim() || !token || employmentType === null) return;`.
Note it does not inspect `isTyping`. -/
def sendPrecond (st : AppState) : Bool :=
  (jsTrim st.inputValue != "") && (st.token != "") && st.employmentType.isSome

/-- The chat request URL: `fetch(`/chat?token=${token}`, ...)`
(App.tsx line 104). -/
def chatUrl (token : String) : String := "/chat?token=" ++ token

/-- The outbound request a dispatch issues, as built in App.tsx lines
104-115, or `none` when the precondition fails and no request is sent.
The body is `{session_id: token, query: inputValue, park: park,
employmentType: employmentType}` — note `query` is the raw `inputValue`,
not its trim. -/
structure ChatRequest where
  url : String
  session_id : String
  query : String
  park : Option String
  employmentType : Option String
deriving DecidableEq, Repr

/-- The request issued by `sendMessage` for a given page park parameter
and state, `none` when the guard on line 96 returns early. -/
def chatRequestOf (parkParam : Option String) (st : AppState) : Option ChatRequest :=
  if sendPrecond st then
    some { url := chatUrl st.token
         , session_id := st.token
         , query := st.inputValue
         , park := parkDisplay parkParam
         , employmentType := st.employmentType }
  else none

/-- The synchronous prefix of `sendMessage` after the guard passes
(App.tsx lines 97-101): clear the input, set the typing flag, append the
user message with the raw input text. -/
def beginSend (st : AppState) : AppState :=
  { st with inputValue := ""
          , isTyping := true
          , messages := st.messages ++ [userMessage st.inputValue] }

/-- The rest of `sendMessage` (App.tsx lines 103-127), applied to the
state after `beginSend`, as a function of the network outcome.  The
status flag of the response is never inspected (there is no
`response.ok` check in `sendMessage`): whenever the body parses, the bot
message is appended and `contents`/`sources` are replaced; a rejected
fetch or a throwing `response.json()` lands in the `catch` block which
changes nothing; the `finally` block clears `isTyping` on every path. -/
def completeSend (st : AppState) (r : NetResult) : AppState :=
  match r with
  | NetResult.response _ (some d) =>
      { st with messages := st.messages ++ [botMessage d.text]
              , contents := d.contents
              , sources := d.sources
              , isTyping := false }
  | NetResult.response _ none => { st with isTyping := false }
  | NetResult.netError => { st with isTyping := false }

/-- `sendMessage` (App.tsx lines 95-128) as one transition from the state
at click time and the network outcome to the state after the `finally`
block. -/
def sendMessage (st : AppState) (r : NetResult) : AppState :=
  if sendPrecond st then completeSend (beginSend st) r else st

/-- `handleNext` of `SourcesModal` (SourceModal.tsx lines 256-258):
`(prevIndex + 1) % sources.length`.  JavaScript `%` by zero yields `NaN`,
and `NaN + 1` stays `NaN`; the cursor is therefore an `Option Nat`, with
`none` standing for `NaN`. -/
def handleNext (len : Nat) (cursor : Option Nat) : Option Nat :=
  match cursor with
  | none => none
  | some i => if len = 0 then none else some ((i + 1) % len)

/-- `handlePrevious` of `SourcesModal` (SourceModal.tsx lines 260-262):
`(prevIndex - 1 + sources.length) % sources.length`, again with `NaN`
(`none`) produced by `% 0` and absorbed thereafter.  For `i : Nat` and
`len > 0` the JavaScript value `(i - 1 + len) % len` equals
`(i + len - 1) % len` computed in `Nat`. -/
def handlePrevious (len : Nat) (cursor : Option Nat) : Option Nat :=
  match cursor with
  | none => none
  | some i => if len = 0 then none else some ((i + len - 1) % len)

/-- The user- and network-triggered events that mutate the modelled state:
typing in the textarea (`setInputValue`, App.tsx line 213), arrival of
the startup token response (App.tsx lines 59-77), a click on a
classification button (App.tsx lines 179-190), and a full dispatch with
its network outcome (App.tsx lines 95-128). -/
inductive Event where
  | typeInput (s : String)
  | tokenArrived (r : TokenResponse)
  | classifySelect (label : String)
  | sendClick (r : NetResult)
deriving DecidableEq, Repr

/-- One step of the conversation controller under an event. -/
def stepFn (st : AppState) : Event → AppState
  | Event.typeInput s => { st with inputValue := s }
  | Event.tokenArrived r => { st with token := (tokenFromResponse r).getD st.token }
  | Event.classifySelect label => classifyClick label st
  | Event.sendClick r => sendMessage st r

/-- States reachable from the initial component state by a trace of
events. -/
inductive Reachable : List Event → AppState → Prop
  | init : Reachable [] initState
  | step (evs : List Event) (st : AppState) (h : Reachable evs st) (e : Event) :
      Reachable (evs ++ [e]) (stepFn st e)

/-- A concrete post-onboarding state used in witnesses and
counterexamples: token present, classified, three onboarding messages,
a non-blank draft in the input box, nothing in flight. -/
def activeState : AppState :=
  { inputValue := "hej"
  , messages := [seedMessage, userMessage "Tillsvidare", ackMessage]
  , employmentType := some "Tillsvidare"
  , token := "tok"
  , isTyping := false
  , contents := []
  , sources := [] }

/-- Unfolding of the `sendMessage` guard into its three conjuncts. -/
lemma sendPrecond_iff (st : AppState) :
    sendPrecond st = true ↔
      jsTrim st.inputValue ≠ "" ∧ st.token ≠ "" ∧ st.employmentType ≠ none := by
  simp [sendPrecond, Bool.and_eq_true, bne_iff_ne, Option.isSome_iff_ne_none,
    and_assoc]

/-- C9 counterexample: the claim says every unrecognized short code falls
back to a defined default display name and style, but the code defaults
only an absent or empty park parameter; the unrecognized non-empty code
xyz resolves to no display name and no style (undefined in JavaScript). -/
theorem c9_counterexample :
    parkDisplay (some "xyz") = none ∧ parkStyleOf (some "xyz") = none := by
  constructor <;> rfl

/-- C9 amended: the four short codes of the fixed mapping resolve to
their display names and style keys, and an absent or empty park
parameter falls back to the default code glt; but a non-empty
unrecognized code resolves to no display name and no style rather than
to a default entry. -/
theorem c9_park_resolution (s : String) (h0 : s ≠ "") (h1 : s ≠ "glt")
    (h2 : s ≠ "kdp") (h3 : s ≠ "fvp") (h4 : s ≠ "ssl") :
    parkDisplay (some s) = none ∧ parkStyleOf (some s) = none ∧
    parkDisplay none = some "Gröna Lund" ∧
    parkDisplay (some "") = some "Gröna Lund" ∧
    parkDisplay (some "glt") = some "Gröna Lund" ∧
    parkDisplay (some "kdp") = some "Kolmården" ∧
    parkDisplay (some "fvp") = some "Furuvik" ∧
    parkDisplay (some "ssl") = some "Skara Sommarland" ∧
    parkStyleOf none = some "bg-glt-primary-600 text-white" ∧
    parkStyleOf (some "glt") = some "bg-glt-primary-600 text-white" ∧
    parkStyleOf (some "kdp") = some "bg-kdp-primary-600 text-white" ∧
    parkStyleOf (some "fvp") = some "bg-fvp-primary-600 text-white" ∧
    parkStyleOf (some "ssl") = some "bg-ssl-primary-600 text-white" := by
  refine ⟨?_, ?_, rfl, rfl, rfl, rfl, rfl, rfl, rfl, rfl, rfl, rfl, rfl⟩ <;>
    simp [parkDisplay, parkStyleOf, resolveParkParam, parkMap, parkStyles,
      h0, h1, h2, h3, h4]

/-- Witness for the C9 amended theorem at the concrete unrecognized code
abc. -/
theorem c9_park_resolution_witness :
    parkDisplay (some "abc") = none ∧ parkStyleOf (some "abc") = none :=
  ⟨(c9_park_resolution "abc" (by decide) (by decide) (by decide) (by decide)
      (by decide)).1,
   (c9_park_resolution "abc" (by decide) (by decide) (by decide) (by decide)
      (by decide)).2.1⟩

/-- C6 counterexample: on a successful response carrying both an X-Token
header and a JSON body token field, the code takes the token from the
header, not from the body field the claim names; and the single request
goes to the root path, not to the /token path the claim names. -/
theorem c6_counterexample :
    tokenFromResponse
        { ok := true, xTokenHeader := some "hdr", bodyTokenField := some "body" } =
      some "hdr" ∧
    specTokenFromResponse
        { ok := true, xTokenHeader := some "hdr", bodyTokenField := some "body" } =
      some "body" ∧
    (some "hdr" : Option String) ≠ some "body" ∧
    tokenUrl "k" = "/?key=k" ∧
    specTokenUrl "k" = "/token?key=k" ∧
    tokenUrl "k" ≠ specTokenUrl "k" := by
  refine ⟨rfl, rfl, by decide, rfl, rfl, by decide⟩

/-- C6 amended: token acquisition issues exactly one GET request, to the
root path with the key as query parameter; on a successful response the
token is taken from the X-Token response header; a non-2xx status, a
missing header, or a present-but-empty header leaves the Session absent
(the token state keeps its initial empty value), with no retry. -/
theorem c6_token_acquisition (r : TokenResponse) (k : String) (st : AppState) :
    tokenUrl k = "/?key=" ++ k ∧
    (r.ok = false → tokenFromResponse r = none) ∧
    (r.ok = true → r.xTokenHeader = none → tokenFromResponse r = none) ∧
    (∀ t, r.ok = true → r.xTokenHeader = some t → t ≠ "" →
       tokenFromResponse r = some t) ∧
    (tokenFromResponse r = none → stepFn st (Event.tokenArrived r) = st) := by
  refine ⟨rfl, ?_, ?_, ?_, ?_⟩
  · intro h; simp [tokenFromResponse, h]
  · intro h h2; simp [tokenFromResponse, h, h2]
  · intro t h h2 h3; simp [tokenFromResponse, h, h2, h3]
  · intro h; simp [stepFn, h]

/-- Witness for the C6 amended theorem on a concrete failed response:
the token stays absent and the state is unchanged. -/
theorem c6_token_acquisition_witness :
    tokenFromResponse { ok := false, xTokenHeader := none, bodyTokenField := none } =
      none ∧
    stepFn initState
        (Event.tokenArrived { ok := false, xTokenHeader := none, bodyTokenField := none }) =
      initState :=
  ⟨(c6_token_acquisition
      { ok := false, xTokenHeader := none, bodyTokenField := none } "k" initState).2.1
      rfl,
   (c6_token_acquisition
      { ok := false, xTokenHeader := none, bodyTokenField := none } "k" initState).2.2.2.2
      rfl⟩

/-- C8 counterexample: with an empty source list the next handler does
execute and does change state — the JavaScript modulo by zero turns the
cursor 0 into NaN (modelled as `none`), so the cursor is not unchanged
as the claim requires. -/
theorem c8_counterexample :
    handleNext 0 (some 0) = none ∧ (none : Option Nat) ≠ some 0 := by
  exact ⟨rfl, by decide⟩

/-- C8 amended: for a non-empty source list the navigation is cyclic —
after k next steps from cursor 0 the cursor is k mod L, and one previous
undoes one next; with an empty list the handlers do not crash but set
the cursor to NaN (modelled `none`), which then absorbs all further
navigation — a state change, guarded in the UI only by the modal-open
button that is rendered solely next to answers with a non-empty source
list. -/
theorem c8_cursor_navigation (L k c : Nat) :
    (0 < L → (handleNext L)^[k] (some 0) = some (k % L)) ∧
    (0 < L → c < L → handlePrevious L (handleNext L (some c)) = some c) ∧
    handleNext 0 (some c) = none ∧ handlePrevious 0 (some c) = none ∧
    handleNext 0 none = none ∧ handlePrevious 0 none = none := by
  refine ⟨?_, ?_, rfl, rfl, rfl, rfl⟩
  · intro hL
    induction k with
    | zero => simp [Nat.mod_eq_of_lt hL]
    | succ n ih =>
        rw [Function.iterate_succ_apply', ih]
        simp only [handleNext, Nat.pos_iff_ne_zero.mp hL, if_false]
        exact congrArg some (Nat.ModEq.add_right 1 (Nat.mod_modEq n L))
  · intro hL hc
    have hLne : L ≠ 0 := Nat.pos_iff_ne_zero.mp hL
    simp only [handleNext, handlePrevious, hLne, if_false]
    by_cases hedge : c + 1 = L
    · have h1 : (c + 1) % L = 0 := by rw [hedge]; exact Nat.mod_self L
      rw [h1]
      have h2 : (0 + L - 1) % L = L - 1 := by
        have h0 : 0 + L - 1 = L - 1 := by omega
        rw [h0]
        exact Nat.mod_eq_of_lt (by omega)
      rw [h2]
      exact congrArg some (by omega)
    · have hlt : c + 1 < L := by omega
      rw [Nat.mod_eq_of_lt hlt]
      have h3 : c + 1 + L - 1 = c + L := by omega
      rw [h3, Nat.add_mod_right, Nat.mod_eq_of_lt hc]

/-- Witness for the C8 amended theorem at L = 3, k = 5, c = 2. -/
theorem c8_cursor_navigation_witness :
    (handleNext 3)^[5] (some 0) = some 2 ∧
    handlePrevious 3 (handleNext 3 (some 2)) = some 2 ∧
    handleNext 0 (some 2) = none :=
  ⟨by
      have h := (c8_cursor_navigation 3 5 2).1 (by decide)
      simpa using h,
   (c8_cursor_navigation 3 5 2).2.1 (by decide) (by decide),
   (c8_cursor_navigation 3 5 2).2.2.1⟩

/-- C1 counterexample: a dispatch attempted while the in-flight flag is
true is not a no-op — the guard on App.tsx line 96 never inspects
`isTyping`, so from a classified, token-holding state with a non-blank
draft and `isTyping = true` the dispatch still appends the optimistic
user message (log grows from 3 to 4 on a network error) and still issues
the network request. -/
theorem c1_counterexample :
    ({ activeState with isTyping := true } : AppState).isTyping = true ∧
    activeState.messages.length = 3 ∧
    (sendMessage { activeState with isTyping := true } NetResult.netError).messages.length = 4 ∧
    (chatRequestOf (some "glt") { activeState with isTyping := true }).isSome = true := by
  refine ⟨rfl, rfl, rfl, rfl⟩

/-- C1 amended: when the session token is absent, the gate is still
awaiting classification, or the query is empty after trimming, dispatch
is a complete no-op — the state (hence the conversation log and the
citation arrays) is unchanged and no request is built; the in-flight
flag, however, is not part of the guard and does not block a dispatch. -/
theorem c1_noop_on_failed_precondition (st : AppState) (r : NetResult)
    (pp : Option String)
    (h : st.token = "" ∨ st.employmentType = none ∨ jsTrim st.inputValue = "") :
    sendMessage st r = st ∧ chatRequestOf pp st = none := by
  have hp : ¬ sendPrecond st = true := by
    rw [sendPrecond_iff]
    rintro ⟨h1, h2, h3⟩
    rcases h with h | h | h
    · exact h2 h
    · exact h3 h
    · exact h1 h
  constructor
  · simp [sendMessage, hp]
  · simp [chatRequestOf, hp]

/-- Witness for the C1 amended theorem: in the initial state the token
is absent and dispatch changes nothing and sends nothing. -/
theorem c1_noop_witness :
    (initState.token = "" ∨ initState.employmentType = none ∨
       jsTrim initState.inputValue = "") ∧
    sendMessage initState NetResult.netError = initState ∧
    chatRequestOf none initState = none :=
  ⟨Or.inl rfl,
   (c1_noop_on_failed_precondition initState NetResult.netError none (Or.inl rfl)).1,
   (c1_noop_on_failed_precondition initState NetResult.netError none (Or.inl rfl)).2⟩

/-- C2 counterexample: a dispatch whose network call fails does not leave
the log length unchanged — the user message appended optimistically
before the fetch (App.tsx lines 100-101) is never rolled back, so from a
3-message state a failed dispatch yields 4 messages, not 3. -/
theorem c2_counterexample :
    activeState.messages.length = 3 ∧
    (sendMessage activeState NetResult.netError).messages.length = 4 := by
  exact ⟨rfl, rfl⟩

/-- C2 amended: per dispatch, the log grows by exactly 2 (user message
then bot message) when the response body parses as JSON, by exactly 0
when a precondition rejects the dispatch, and by exactly 1 (the
optimistic user message alone) when the fetch rejects or the body fails
to parse. -/
theorem c2_log_growth (st : AppState) (ok : Bool) (d : ChatData) :
    (sendPrecond st = false → ∀ r, sendMessage st r = st) ∧
    (sendPrecond st = true →
       (sendMessage st (NetResult.response ok (some d))).messages =
         st.messages ++ [userMessage st.inputValue, botMessage d.text]) ∧
    (sendPrecond st = true →
       (sendMessage st NetResult.netError).messages =
         st.messages ++ [userMessage st.inputValue]) ∧
    (sendPrecond st = true →
       (sendMessage st (NetResult.response ok none)).messages =
         st.messages ++ [userMessage st.inputValue]) := by
  refine ⟨?_, ?_, ?_, ?_⟩
  · intro h r; simp [sendMessage, h]
  · intro h; simp [sendMessage, h, completeSend, beginSend]
  · intro h; simp [sendMessage, h, completeSend, beginSend]
  · intro h; simp [sendMessage, h, completeSend, beginSend]

/-- Witness for the C2 amended theorem at the concrete post-onboarding
state: a parsed response appends two messages, a network error one. -/
theorem c2_log_growth_witness :
    (sendMessage activeState
        (NetResult.response true (some { text := "Svar", sources := [], contents := [] }))).messages =
      activeState.messages ++ [userMessage "hej", botMessage "Svar"] ∧
    (sendMessage activeState NetResult.netError).messages =
      activeState.messages ++ [userMessage "hej"] :=
  ⟨(c2_log_growth activeState true
      { text := "Svar", sources := [], contents := [] }).2.1 rfl,
   (c2_log_growth activeState true
      { text := "Svar", sources := [], contents := [] }).2.2.1 rfl⟩

/-- C3 counterexample: a non-2xx response is not treated as a failure —
`sendMessage` never checks `response.ok`, so a response with ok = false
whose body parses as JSON still appends a bot message and still
overwrites the citation arrays (sources go from empty to a one-element
list). -/
theorem c3_counterexample :
    (sendMessage activeState
        (NetResult.response false (some { text := "err", sources := ["S"], contents := ["C"] }))).messages =
      activeState.messages ++ [userMessage "hej", botMessage "err"] ∧
    (sendMessage activeState
        (NetResult.response false (some { text := "err", sources := ["S"], contents := ["C"] }))).sources =
      ["S"] ∧
    activeState.sources = [] := by
  refine ⟨rfl, rfl, rfl⟩

/-- C3 amended: the failures the code recognises are a rejected fetch
(network failure) and a body that fails to parse as JSON; on those, no
bot message is appended (only the optimistic user message remains) and
the citation arrays are left unmutated.  A non-2xx response with a
parseable JSON body is processed exactly like a success. -/
theorem c3_failure_no_mutation (st : AppState) (r : NetResult)
    (h : sendPrecond st = true)
    (hr : r = NetResult.netError ∨ ∃ ok, r = NetResult.response ok none) :
    (sendMessage st r).messages = st.messages ++ [userMessage st.inputValue] ∧
    (sendMessage st r).contents = st.contents ∧
    (sendMessage st r).sources = st.sources := by
  rcases hr with hr | ⟨ok, hr⟩ <;> subst hr <;>
    exact ⟨by simp [sendMessage, h, completeSend, beginSend],
           by simp [sendMessage, h, completeSend, beginSend],
           by simp [sendMessage, h, completeSend, beginSend]⟩

/-- Witness for the C3 amended theorem at the concrete post-onboarding
state with a network error. -/
theorem c3_failure_no_mutation_witness :
    (sendMessage activeState NetResult.netError).messages =
      activeState.messages ++ [userMessage "hej"] ∧
    (sendMessage activeState NetResult.netError).sources = activeState.sources :=
  ⟨(c3_failure_no_mutation activeState NetResult.netError rfl (Or.inl rfl)).1,
   (c3_failure_no_mutation activeState NetResult.netError rfl (Or.inl rfl)).2.2⟩

/-- C4 confirmed: for a dispatch that passes the guard, the in-flight
flag is set by the synchronous prefix before the fetch is issued
(App.tsx line 98) and the finally block clears it on every outcome —
parsed response, unparseable body, and rejected fetch — so the completed
dispatch always ends with the flag false. -/
theorem c4_inflight_lifecycle (st : AppState) (h : sendPrecond st = true) :
    (beginSend st).isTyping = true ∧
    ∀ r, (sendMessage st r).isTyping = false := by
  refine ⟨rfl, ?_⟩
  intro r
  cases r with
  | response ok body =>
      cases body <;> simp [sendMessage, h, completeSend, beginSend]
  | netError => simp [sendMessage, h, completeSend, beginSend]

/-- Witness for C4 at the concrete post-onboarding state. -/
theorem c4_inflight_lifecycle_witness :
    (beginSend activeState).isTyping = true ∧
    (sendMessage activeState NetResult.netError).isTyping = false :=
  ⟨(c4_inflight_lifecycle activeState rfl).1,
   (c4_inflight_lifecycle activeState rfl).2 NetResult.netError⟩

/-- C5 confirmed: the classification event is a no-op once the gate is
active (the selection buttons are rendered only while the employment
type is unset, App.tsx line 174), and from the awaiting state it records
the classification and appends, in one state update, the user message
carrying the label followed by the fixed bot acknowledgement, growing
the log by exactly 2 — so the 1-message seed log becomes a 3-message
log. -/
theorem c5_classify (st : AppState) (label : String) :
    (∀ t, st.employmentType = some t → classifyClick label st = st) ∧
    (st.employmentType = none →
       (classifyClick label st).messages =
         st.messages ++ [userMessage label, ackMessage] ∧
       (classifyClick label st).employmentType = some label ∧
       (classifyClick label st).messages.length = st.messages.length + 2) := by
  constructor
  · intro t ht
    simp [classifyClick, ht]
  · intro h
    refine ⟨?_, ?_, ?_⟩ <;>
      simp [classifyClick, h, handleEmploymentTypeSelection]

/-- Witness for C5: classifying the seed state yields the 3-message log
and flips the gate; re-classifying the already-active state changes
nothing. -/
theorem c5_classify_witness :
    (classifyClick "Tillsvidare" initState).messages =
      [seedMessage, userMessage "Tillsvidare", ackMessage] ∧
    (classifyClick "Tillsvidare" initState).employmentType = some "Tillsvidare" ∧
    classifyClick "Säsong/Visstid" activeState = activeState :=
  ⟨((c5_classify initState "Tillsvidare").2 rfl).1,
   ((c5_classify initState "Tillsvidare").2 rfl).2.1,
   (c5_classify activeState "Säsong/Visstid").1 "Tillsvidare" rfl⟩

/-- C7 counterexample: the request body carries the raw input text, not
its trim — with the padded draft the query field keeps the surrounding
whitespace. -/
theorem c7_counterexample :
    chatRequestOf (some "glt") { activeState with inputValue := "  hej  " } =
      some { url := "/chat?token=tok", session_id := "tok", query := "  hej  ",
             park := some "Gröna Lund", employmentType := some "Tillsvidare" } ∧
    jsTrim "  hej  " = "hej" ∧
    ("  hej  " : String) ≠ "hej" := by
  refine ⟨rfl, rfl, by decide⟩

/-- C7 amended: every dispatch that passes the guard builds its request
fresh from the current state and issues it to /chat with the token as
query parameter; the body has session_id equal to the current token,
query equal to the raw (untrimmed) input text — trimming is used only in
the guard — park equal to the resolved park display name, and
employmentType equal to the current classification. -/
theorem c7_request_build (pp : Option String) (st : AppState)
    (h : sendPrecond st = true) :
    chatRequestOf pp st =
      some { url := chatUrl st.token, session_id := st.token,
             query := st.inputValue, park := parkDisplay pp,
             employmentType := st.employmentType } := by
  simp [chatRequestOf, h]

/-- Witness for the C7 amended theorem at the concrete post-onboarding
state. -/
theorem c7_request_build_witness :
    chatRequestOf (some "kdp") activeState =
      some { url := "/chat?token=tok", session_id := "tok", query := "hej",
             park := some "Kolmården", employmentType := some "Tillsvidare" } :=
  c7_request_build (some "kdp") activeState rfl

/-- Structural invariant of every reachable state: before classification
the log is exactly the seed greeting; after classification the log is
the seed, the user label, the fixed acknowledgement, and a tail in which
every bot message is the text of some successfully parsed dispatch
response recorded in the event trace. -/
lemma reachable_log_structure {evs : List Event} {st : AppState}
    (h : Reachable evs st) :
    (st.employmentType = none ∧ st.messages = [seedMessage]) ∨
    (∃ lab tail, st.employmentType = some lab ∧
       st.messages = seedMessage :: userMessage lab :: ackMessage :: tail ∧
       ∀ m ∈ tail, m.fromBot = true →
         ∃ ok d, Event.sendClick (NetResult.response ok (some d)) ∈ evs ∧
           m.text = d.text) := by
  induction h with
  | init => exact Or.inl ⟨rfl, rfl⟩
  | step evs st h e ih =>
    have wk : ∀ {tail : List Message},
        (∀ m ∈ tail, m.fromBot = true →
           ∃ ok d, Event.sendClick (NetResult.response ok (some d)) ∈ evs ∧
             m.text = d.text) →
        ∀ m ∈ tail, m.fromBot = true →
          ∃ ok d, Event.sendClick (NetResult.response ok (some d)) ∈ evs ++ [e] ∧
            m.text = d.text := by
      intro tail h3 m hm hb
      obtain ⟨ok, d, hmem, ht⟩ := h3 m hm hb
      exact ⟨ok, d, List.mem_append_left _ hmem, ht⟩
    cases e with
    | typeInput s =>
        rcases ih with ⟨h1, h2⟩ | ⟨lab, tail, h1, h2, h3⟩
        · exact Or.inl ⟨h1, h2⟩
        · exact Or.inr ⟨lab, tail, h1, h2, wk h3⟩
    | tokenArrived r =>
        rcases ih with ⟨h1, h2⟩ | ⟨lab, tail, h1, h2, h3⟩
        · exact Or.inl ⟨h1, h2⟩
        · exact Or.inr ⟨lab, tail, h1, h2, wk h3⟩
    | classifySelect lab =>
        rcases ih with ⟨h1, h2⟩ | ⟨lab0, tail, h1, h2, h3⟩
        · right
          refine ⟨lab, [], ?_, ?_, ?_⟩
          · simp [stepFn, classifyClick, h1, handleEmploymentTypeSelection]
          · simp [stepFn, classifyClick, h1, handleEmploymentTypeSelection, h2]
          · intro m hm
            simp at hm
        · right
          refine ⟨lab0, tail, ?_, ?_, wk h3⟩
          · simp [stepFn, classifyClick, h1]
          · simp [stepFn, classifyClick, h1, h2]
    | sendClick r =>
        by_cases hp : sendPrecond st = true
        · rcases ih with ⟨h1, h2⟩ | ⟨lab, tail, h1, h2, h3⟩
          · exact absurd h1 ((sendPrecond_iff st).mp hp).2.2
          · right
            cases r with
            | response ok body =>
                cases body with
                | none =>
                    refine ⟨lab, tail ++ [userMessage st.inputValue], ?_, ?_, ?_⟩
                    · simp [stepFn, sendMessage, hp, completeSend, beginSend, h1]
                    · simp [stepFn, sendMessage, hp, completeSend, beginSend, h2]
                    · intro m hm hb
                      rcases List.mem_append.mp hm with hm | hm
                      · exact wk h3 m hm hb
                      · rw [List.mem_singleton.mp hm] at hb
                        exact absurd hb (by simp [userMessage])
                | some d =>
                    refine ⟨lab,
                      tail ++ [userMessage st.inputValue, botMessage d.text],
                      ?_, ?_, ?_⟩
                    · simp [stepFn, sendMessage, hp, completeSend, beginSend, h1]
                    · simp [stepFn, sendMessage, hp, completeSend, beginSend, h2]
                    · intro m hm hb
                      rcases List.mem_append.mp hm with hm | hm
                      · exact wk h3 m hm hb
                      · rcases List.mem_cons.mp hm with hm | hm
                        · rw [hm] at hb
                          exact absurd hb (by simp [userMessage])
                        · rw [List.mem_singleton.mp hm]
                          exact ⟨ok, d,
                            List.mem_append_right _ (List.mem_singleton_self _),
                            rfl⟩
            | netError =>
                refine ⟨lab, tail ++ [userMessage st.inputValue], ?_, ?_, ?_⟩
                · simp [stepFn, sendMessage, hp, completeSend, beginSend, h1]
                · simp [stepFn, sendMessage, hp, completeSend, beginSend, h2]
                · intro m hm hb
                  rcases List.mem_append.mp hm with hm | hm
                  · exact wk h3 m hm hb
                  · rw [List.mem_singleton.mp hm] at hb
                    exact absurd hb (by simp [userMessage])
        · have hst : stepFn st (Event.sendClick r) = st := by
            simp [stepFn, sendMessage, hp]
          rw [hst]
          rcases ih with ⟨h1, h2⟩ | ⟨lab, tail, h1, h2, h3⟩
          · exact Or.inl ⟨h1, h2⟩
          · exact Or.inr ⟨lab, tail, h1, h2, wk h3⟩

/-- C10 confirmed: in every reachable state the message at index 0 is
the seed bot greeting; before classification the log is only that seed;
once classified, index 1 holds the user classification label and index 2
the fixed bot acknowledgement; and every bot message at an index greater
than 2 carries the text of a successfully parsed dispatch response from
the event trace — the invariant behind the rendering predicate on
indices greater than 2 that attaches the citation affordance only to
real answers. -/
theorem c10_log_invariant (evs : List Event) (st : AppState)
    (h : Reachable evs st) :
    st.messages.get? 0 = some seedMessage ∧
    (st.employmentType = none → st.messages = [seedMessage]) ∧
    (∀ lab, st.employmentType = some lab →
       st.messages.get? 1 = some (userMessage lab) ∧
       st.messages.get? 2 = some ackMessage) ∧
    (∀ i m, 2 < i → st.messages.get? i = some m → m.fromBot = true →
       ∃ ok d, Event.sendClick (NetResult.response ok (some d)) ∈ evs ∧
         m.text = d.text) := by
  rcases reachable_log_structure h with ⟨h1, h2⟩ | ⟨lab, tail, h1, h2, h3⟩
  · refine ⟨by rw [h2]; rfl, fun _ => h2, ?_, ?_⟩
    · intro lab hlab
      rw [h1] at hlab
      exact Option.noConfusion hlab
    · intro i m hi hm hb
      rw [h2] at hm
      rw [List.get?_eq_none.mpr (by simp; omega)] at hm
      exact Option.noConfusion hm
  · have hg : ∀ k, st.messages.get? (k + 3) = tail.get? k := by
      intro k
      rw [h2]
      rfl
    refine ⟨by rw [h2]; rfl, ?_, ?_, ?_⟩
    · intro hnone
      rw [h1] at hnone
      exact Option.noConfusion hnone
    · intro lab0 hlab
      rw [h1] at hlab
      injection hlab with hh
      subst hh
      exact ⟨by rw [h2]; rfl, by rw [h2]; rfl⟩
    · intro i m hi hm hb
      obtain ⟨k, rfl⟩ : ∃ k, i = k + 3 := ⟨i - 3, by omega⟩
      rw [hg k] at hm
      obtain ⟨ok, d, hmem, ht⟩ := h3 m (List.get?_mem hm) hb
      exact ⟨ok, d, hmem, ht⟩

/-- Witness for C10 on the concrete trace classify, token arrival, type
a query, dispatch with a parsed answer: the head of the resulting
5-message log is still the seed greeting. -/
theorem c10_log_invariant_witness :
    (stepFn (stepFn (stepFn (stepFn initState
        (Event.classifySelect "Tillsvidare"))
        (Event.tokenArrived { ok := true, xTokenHeader := some "tok", bodyTokenField := none }))
        (Event.typeInput "hej"))
        (Event.sendClick (NetResult.response true
          (some { text := "Svar", sources := ["S"], contents := ["C"] })))).messages.get? 0 =
      some seedMessage :=
  (c10_log_invariant _ _
    (Reachable.step _ _
      (Reachable.step _ _
        (Reachable.step _ _
          (Reachable.step _ _ Reachable.init
            (Event.classifySelect "Tillsvidare"))
          (Event.tokenArrived { ok := true, xTokenHeader := some "tok", bodyTokenField := none }))
        (Event.typeInput "hej"))
      (Event.sendClick (NetResult.response true
        (some { text := "Svar", sources := ["S"], contents := ["C"] }))))).1

end Backster
